import Mathlib

/-!
# Verification of `sn.dataframe` type inference and schema synthesis

A shallow embedding of the dtype-inference core of the `sn` library
(`src/sn/dataframe.py`): the function `to_sqla`, which infers a relational
column type for a pandas Series, and the method `SNDF.reflect`, which
assembles a schema definition for a whole dataframe.

The embedding models a pandas Series as an ordered list of nullable scalar
cells together with the column-level attributes that `to_sqla` actually
inspects: the storage dtype (consulted by the `column.dtype == 'float32'`
and `column.dtype == 'int32'` checks) and the column-level timezone flag
(consulted by the `column.dt.tz is not None` check).  The external
classifier `pandas._libs.lib.infer_dtype` is modelled by the contract the
specification assigns to it: it classifies the non-null cells into one
semantic kind, returning "empty" when no non-null cell remains and "mixed"
when the cells are heterogeneous.
-/

set_option autoImplicit false

namespace Sn

/-- A scalar cell of a pandas Series.  A cell is either a null marker or a
defined value of one semantic kind.  Datetime cells carry their time-of-day
components (hour, minute, second, nanosecond), the only per-value data
`to_sqla` inspects (via `column.dt.hour`). -/
inductive Scalar where
  | null
  | int
  | float
  | bool
  | date
  | datetime (hour minute second nanosecond : Nat)
  | time
  | timedelta
  | complex
  | text
  deriving Repr, DecidableEq

namespace Scalar

/-- `pd.notna` on one cell: everything except the null marker is defined. -/
def notna : Scalar → Bool
  | null => false
  | _ => true

/-- The kind label `pandas.api.types.infer_dtype` assigns to one defined
cell. -/
def kindLabel : Scalar → String
  | null => "empty"
  | int => "integer"
  | float => "floating"
  | bool => "boolean"
  | date => "date"
  | datetime _ _ _ _ => "datetime"
  | time => "time"
  | timedelta => "timedelta64"
  | complex => "complex"
  | text => "string"

/-- `column.dt.hour` for one cell; only ever applied to datetime cells. -/
def dtHour : Scalar → Nat
  | datetime h _ _ _ => h
  | _ => 0

/-- Whether a datetime cell's time-of-day is exactly midnight: hour,
minute, second and sub-second all zero. -/
def isMidnight : Scalar → Bool
  | datetime h m s ns => h == 0 && m == 0 && s == 0 && ns == 0
  | _ => true

/-- Whether a cell is a datetime value. -/
def isDatetime : Scalar → Bool
  | datetime _ _ _ _ => true
  | _ => false

end Scalar

/-- The numpy storage dtype of a pandas Series, as far as `to_sqla`
distinguishes them: it compares the dtype against `'float32'` and
`'int32'`, so every other dtype only matters through which branch it does
not take. -/
inductive DType where
  | int8
  | int16
  | int32
  | int64
  | float16
  | float32
  | float64
  | bool
  | datetime64
  | timedelta64
  | object
  deriving Repr, DecidableEq

/-- Storage width in bits, for the narrowing-avoidance property of integer
inference. -/
def DType.bits : DType → Nat
  | .int8 => 8
  | .int16 => 16
  | .int32 => 32
  | .int64 => 64
  | .float16 => 16
  | .float32 => 32
  | .float64 => 64
  | .bool => 8
  | .datetime64 => 64
  | .timedelta64 => 64
  | .object => 64

/-- A pandas Series: an ordered list of nullable cells plus the
column-level attributes `to_sqla` reads.  `tz` models
`column.dt.tz is not None`: pandas keeps timezone information at the column
level (dtype `datetime64[ns, tz]`), so one flag covers the whole column. -/
structure Series where
  values : List Scalar
  dtype : DType
  tz : Bool
  deriving Repr, DecidableEq

/-- `column[column.notna()]`: the non-null cells, in order. -/
def Series.nonNull (s : Series) : List Scalar :=
  s.values.filter Scalar.notna

/-- The external classifier `pandas._libs.lib.infer_dtype`, modelled by the
contract the specification assigns to the underlying tabular library:
the non-null cells are classified into exactly one kind label, "empty" when
no cell remains after null filtering, "mixed" when the cells are of more
than one kind. -/
def infer_dtype (cells : List Scalar) : String :=
  match cells with
  | [] => "empty"
  | v :: rest =>
      if rest.all (fun w => w.kindLabel == v.kindLabel) then v.kindLabel
      else "mixed"

/-- The relational column types `to_sqla` can produce (sqlalchemy type
objects). -/
inductive SqlType where
  | BigInteger
  | Integer
  | Float (precision : Nat)
  | Text
  | Boolean
  | DateTime
  | Date
  | Time
  | TIMESTAMP (timezone : Bool)
  deriving Repr, DecidableEq

/-- The width in bits of the integer types, for the narrowing-avoidance
property; non-integer types are given width 0. -/
def SqlType.intBits : SqlType → Nat
  | .Integer => 32
  | .BigInteger => 64
  | _ => 0

/-- `sn.dataframe.to_sqla`: infer a pandas Series's sqlalchemy column type.

Faithful to the source: nulls are removed first; a datetime-kind column is
checked for a column timezone (timezone-aware timestamp), then for
`(column.dt.hour == 0).all()` (Date versus DateTime); otherwise the
translation table maps timedelta to BigInteger, floating to `Float(23)` or
`Float(53)` by storage dtype, integer to `Integer` or `BigInteger` by
storage dtype, boolean, date and time to their namesakes, complex to a
raised `ValueError('complex dtypes not supported')` (modelled as
`Except.error`), and every unrecognised kind (the `KeyError` branch) to
`Text`. -/
def to_sqla (column : Series) : Except String SqlType :=
  let cells := column.nonNull
  let col_type := infer_dtype cells
  if col_type = "datetime64" ∨ col_type = "datetime" then
    if column.tz then .ok (.TIMESTAMP true)
    else if cells.all (fun v => v.dtHour == 0) then .ok .Date
    else .ok .DateTime
  else if col_type = "timedelta64" then .ok .BigInteger
  else if col_type = "floating" then
    if column.dtype = .float32 then .ok (.Float 23) else .ok (.Float 53)
  else if col_type = "integer" then
    if column.dtype = .int32 then .ok .Integer else .ok .BigInteger
  else if col_type = "boolean" then .ok .Boolean
  else if col_type = "date" then .ok .Date
  else if col_type = "time" then .ok .Time
  else if col_type = "complex" then .error "complex dtypes not supported"
  else .ok .Text

/-- Python's `str.lower()` on the ASCII column names the library deals in:
each character is lowercased independently. -/
def pyLower (s : String) : String := ⟨s.data.map Char.toLower⟩

/-- The `pk` argument of `SNDF.reflect`, declared `Union[str, list] = None`
in the source: the caller may pass nothing, a single column name, or a list
of column names. -/
inductive PkArg where
  | none
  | str (s : String)
  | list (l : List String)
  deriving Repr, DecidableEq

/-- The argument normalisation at the top of `SNDF.reflect`:
`if pk is None: pk = []` and `if isinstance(pk, str): pk = [pk]`. -/
def PkArg.normalize : PkArg → List String
  | .none => []
  | .str s => [s]
  | .list l => l

/-- A pandas DataFrame, as far as `reflect` reads it: the ordered sequence
of named columns (`self._df.columns` paired with `self._df.iloc[:, i]`). -/
structure DataFrame where
  cols : List (String × Series)
  deriving Repr, DecidableEq

/-- One entry of the assembled `c_name_and_types` list: column name,
resolved sqlalchemy type, primary-key flag. -/
structure SchemaEntry where
  name : String
  type : SqlType
  is_pk : Bool
  deriving Repr, DecidableEq

/-- The loop body of `SNDF.reflect`, iterated over the dataframe's columns
in order.  Faithful to the source line
`type = dtypes.get(name, to_sqla(self._df.iloc[:, i]))`: Python evaluates
the default argument of `dict.get` eagerly, so `to_sqla` runs on every
column — and any error it raises propagates — before the override lookup
takes effect.  The primary-key flag is
`name.lower() in map(lambda s: s.lower(), pk)`. -/
def build_schema (pk : List String) (dtypes : List (String × SqlType)) :
    List (String × Series) → Except String (List SchemaEntry)
  | [] => .ok []
  | (name, s) :: rest => do
      let inferred ← to_sqla s
      let type := ((dtypes.lookup name).getD inferred)
      let is_pk := (pk.map pyLower).contains (pyLower name)
      let tail ← build_schema pk dtypes rest
      pure (⟨name, type, is_pk⟩ :: tail)

/-- The structural content of the `sa.Table` object `reflect` builds: the
table name and the ordered `(name, type, primary_key)` columns. -/
structure Table where
  table_name : String
  columns : List SchemaEntry
  deriving Repr, DecidableEq

/-- The return value of `reflect`: the `sa.Table` model, or — when
`as_sql_stmt` is true — the CREATE-TABLE statement text. -/
inductive ReflectResult where
  | table (t : Table)
  | stmt (s : String)
  deriving Repr, DecidableEq

/-- The type name sqlalchemy renders for each column type in a
CREATE-TABLE statement (sqlite dialect, as in the repository's tests). -/
def SqlType.render : SqlType → String
  | .BigInteger => "BIGINT"
  | .Integer => "INTEGER"
  | .Float _ => "FLOAT"
  | .Text => "TEXT"
  | .Boolean => "BOOLEAN"
  | .DateTime => "DATETIME"
  | .Date => "DATE"
  | .Time => "TIME"
  | .TIMESTAMP _ => "TIMESTAMP"

/-- `str(sa.schema.CreateTable(tbl).compile(dialect=bind.dialect))`,
an external sqlalchemy collaborator: a deterministic pure rendering of the
table model into DDL text, one line per column. -/
def renderCreateTable (t : Table) : String :=
  let cols := t.columns.map (fun e => "\t" ++ e.name ++ " " ++ e.type.render)
  "CREATE TABLE " ++ t.table_name ++ " (\n"
    ++ String.intercalate ",\n" cols ++ "\n)"

/-- `SNDF.reflect`: generate a SQLAlchemy model from pandas dtypes.

Faithful to the source: `pk` is normalised (`None` to `[]`, a bare string
to a one-element list), then for each dataframe column in order the type is
resolved (`dtypes.get(name, to_sqla(column))`, with Python's eager default
evaluation) and the case-insensitive primary-key membership test is
applied; the triples are assembled into a table model, rendered to DDL text
when `as_sql_stmt` is true. -/
def reflect (df : DataFrame) (table_name : String := "TMP_dataframe")
    (pk : PkArg := .none) (dtypes : List (String × SqlType) := [])
    (as_sql_stmt : Bool := false) : Except String ReflectResult := do
  let pkList := pk.normalize
  let entries ← build_schema pkList dtypes df.cols
  let tbl : Table := ⟨table_name, entries⟩
  if as_sql_stmt then
    pure (.stmt (renderCreateTable tbl))
  else
    pure (.table tbl)

/-! Concrete columns and dataframes, used to exercise the definitions on
explicit inputs (counterexamples and witnesses). -/

/-- A column of complex numbers with a null marker, stored as object
dtype. -/
def complexColumn : Series := ⟨[.complex, .null, .complex], .object, false⟩

/-- A one-column dataframe holding the complex column. -/
def complexFrame : DataFrame := ⟨[("measurement", complexColumn)]⟩

/-- A naive datetime column whose single value has time-of-day 00:30:00,
i.e. hour zero but a nonzero minute. -/
def halfPastMidnight : Series := ⟨[.datetime 0 30 0 0], .datetime64, false⟩

/-- A naive datetime column with every value at exactly midnight. -/
def datesColumn : Series :=
  ⟨[.datetime 0 0 0 0, .datetime 0 0 0 0], .datetime64, false⟩

/-- A 64-bit integer column with one null marker. -/
def intsColumn : Series := ⟨[.int, .null], .int64, false⟩

/-- A two-column dataframe: midnight dates and 64-bit integers. -/
def sampleFrame : DataFrame :=
  ⟨[("dates_not_null", datesColumn), ("amount", intsColumn)]⟩

/-- A timezone-aware datetime column whose values are all at midnight. -/
def datesColumnTz : Series := ⟨[.datetime 0 0 0 0], .datetime64, true⟩

/-- An all-null object column. -/
def nullColumn : Series := ⟨[.null, .null], .object, false⟩

/-- A 32-bit float column. -/
def floatsColumn : Series := ⟨[.float, .float], .float32, false⟩

/-! Helper lemmas about the embedding, shared by the claim theorems. -/

/-- When every cell of a nonempty list has the same kind label, the
modelled classifier returns that label. -/
theorem infer_dtype_const (cells : List Scalar) (k : String) (hne : cells ≠ [])
    (h : ∀ v ∈ cells, v.kindLabel = k) : infer_dtype cells = k := by
  cases cells with
  | nil => exact absurd rfl hne
  | cons v rest =>
      have hv := h v (List.mem_cons_self v rest)
      simp only [infer_dtype]
      rw [if_pos]
      · exact hv
      · rw [List.all_eq_true]
        intro w hw
        rw [beq_iff_eq, h w (List.mem_cons_of_mem v hw), hv]

/-- A datetime cell's kind label is the one the datetime branch of
`to_sqla` matches on. -/
theorem kindLabel_of_isDatetime (v : Scalar) (h : v.isDatetime = true) :
    v.kindLabel = "datetime" := by
  cases v <;> simp_all [Scalar.isDatetime, Scalar.kindLabel]

/-- On a complex-kind column, `to_sqla` reaches the `raise` branch of the
translation table. -/
theorem to_sqla_kind_complex (s : Series) (hk : infer_dtype s.nonNull = "complex") :
    to_sqla s = .error "complex dtypes not supported" := by
  simp [to_sqla, hk]

/-- On a datetime-kind column, `to_sqla` dispatches on the timezone flag
and then on `(column.dt.hour == 0).all()`. -/
theorem to_sqla_kind_datetime (s : Series) (hk : infer_dtype s.nonNull = "datetime") :
    to_sqla s = if s.tz then .ok (.TIMESTAMP true)
      else if s.nonNull.all (fun v => v.dtHour == 0) then .ok .Date
      else .ok .DateTime := by
  simp [to_sqla, hk]

/-- On an empty-kind column (all nulls), `to_sqla` falls through the
translation table's `KeyError` branch to `Text`. -/
theorem to_sqla_kind_empty (s : Series) (hk : infer_dtype s.nonNull = "empty") :
    to_sqla s = .ok .Text := by
  simp [to_sqla, hk]

/-- On an integer-kind column, `to_sqla` dispatches on the storage
dtype. -/
theorem to_sqla_kind_integer (s : Series) (hk : infer_dtype s.nonNull = "integer") :
    to_sqla s = if s.dtype = .int32 then .ok .Integer else .ok .BigInteger := by
  simp [to_sqla, hk]

/-- On a floating-kind column, `to_sqla` dispatches on the storage
dtype. -/
theorem to_sqla_kind_floating (s : Series) (hk : infer_dtype s.nonNull = "floating") :
    to_sqla s = if s.dtype = .float32 then .ok (.Float 23) else .ok (.Float 53) := by
  simp [to_sqla, hk]

/-- The only error `to_sqla` can produce is the complex-dtype one. -/
theorem to_sqla_error_msg (s : Series) (e : String) (h : to_sqla s = .error e) :
    e = "complex dtypes not supported" := by
  simp only [to_sqla] at h
  split_ifs at h
  all_goals simp_all

/-- When inference fails on any column of the dataset, schema assembly
fails with the complex-dtype error, overrides notwithstanding. -/
theorem build_schema_error_of_mem (pk : List String) (d : List (String × SqlType))
    (cols : List (String × Series)) (name : String) (s : Series) (e : String)
    (hmem : (name, s) ∈ cols) (herr : to_sqla s = .error e) :
    build_schema pk d cols = .error "complex dtypes not supported" := by
  induction cols with
  | nil => simp at hmem
  | cons c rest ih =>
      rcases List.mem_cons.mp hmem with h | h
      · subst h
        have := to_sqla_error_msg s e herr
        subst this
        simp [build_schema, herr, Bind.bind, Except.bind]
      · obtain ⟨n0, s0⟩ := c
        cases h0 : to_sqla s0 with
        | error e0 =>
            have := to_sqla_error_msg s0 e0 h0
            subst this
            simp [build_schema, h0, Bind.bind, Except.bind]
        | ok v =>
            simp [build_schema, h0, Bind.bind, Except.bind, ih h]

/-- A successful schema assembly lists exactly the dataset's column names,
in input order. -/
theorem build_schema_ok_names (pk : List String) (d : List (String × SqlType))
    (cols : List (String × Series)) (l : List SchemaEntry)
    (h : build_schema pk d cols = .ok l) :
    l.map SchemaEntry.name = cols.map Prod.fst := by
  induction cols generalizing l with
  | nil => simp [build_schema] at h; subst h; simp
  | cons c rest ih =>
      obtain ⟨n0, s0⟩ := c
      cases h0 : to_sqla s0 with
      | error e0 => simp [build_schema, h0, Bind.bind, Except.bind] at h
      | ok v =>
          cases h1 : build_schema pk d rest with
          | error e1 => simp [build_schema, h0, h1, Bind.bind, Except.bind] at h
          | ok tail =>
              simp only [build_schema, h0, h1, Bind.bind, Except.bind, Pure.pure,
                Except.pure, Except.ok.injEq] at h
              subst h
              simp [ih tail h1]

/-- Every entry of a successful schema assembly carries the
case-insensitive primary-key flag and respects the `dtypes` override for
its name. -/
theorem build_schema_ok_entry (pk : List String) (d : List (String × SqlType))
    (cols : List (String × Series)) (l : List SchemaEntry)
    (h : build_schema pk d cols = .ok l) :
    ∀ e ∈ l, (e.is_pk = true ↔ ∃ p ∈ pk, pyLower p = pyLower e.name) ∧
      ∀ T, d.lookup e.name = some T → e.type = T := by
  induction cols generalizing l with
  | nil => simp [build_schema] at h; subst h; simp
  | cons c rest ih =>
      obtain ⟨n0, s0⟩ := c
      cases h0 : to_sqla s0 with
      | error e0 => simp [build_schema, h0, Bind.bind, Except.bind] at h
      | ok v =>
          cases h1 : build_schema pk d rest with
          | error e1 => simp [build_schema, h0, h1, Bind.bind, Except.bind] at h
          | ok tail =>
              simp only [build_schema, h0, h1, Bind.bind, Except.bind, Pure.pure,
                Except.pure, Except.ok.injEq] at h
              subst h
              intro e he
              rcases List.mem_cons.mp he with h2 | h2
              · subst h2
                refine ⟨?_, ?_⟩
                · simp [List.contains_iff_exists_mem_beq]
                · intro T hT
                  simp [hT]
              · exact ih tail h1 e h2

/-- Inversion for a successful `reflect` call with `as_sql_stmt = False`:
the result is the table built from a successful schema assembly. -/
theorem reflect_ok_table (df : DataFrame) (tn : String) (pk : PkArg)
    (d : List (String × SqlType)) (r : ReflectResult)
    (h : reflect df tn pk d false = .ok r) :
    ∃ l, build_schema pk.normalize d df.cols = .ok l ∧ r = .table ⟨tn, l⟩ := by
  cases h1 : build_schema pk.normalize d df.cols with
  | error e => simp [reflect, h1, Bind.bind, Except.bind] at h
  | ok l =>
      refine ⟨l, rfl, ?_⟩
      simp only [reflect, h1, Bind.bind, Except.bind, Bool.false_eq_true, if_false,
        Pure.pure, Except.pure, Except.ok.injEq] at h
      exact h.symm

/-- When inference fails on any column of the dataset, the whole `reflect`
call fails with the complex-dtype error. -/
theorem reflect_error_of_col (df : DataFrame) (tn : String) (pk : PkArg)
    (d : List (String × SqlType)) (name : String) (s : Series) (e : String)
    (hmem : (name, s) ∈ df.cols) (herr : to_sqla s = .error e) (b : Bool) :
    reflect df tn pk d b = .error "complex dtypes not supported" := by
  have := build_schema_error_of_mem pk.normalize d df.cols name s e hmem herr
  simp [reflect, this, Bind.bind, Except.bind]

/-! The claims. -/

/-- C1, counterexample: the claim says that a `dtypes` override suppresses
the call to `to_sqla` for that column, so that synthesis succeeds even when
inference on the column would fail.  On the code, `dtypes.get(name,
to_sqla(...))` evaluates its default argument eagerly: with an override
supplied for the complex column, `to_sqla` still fails and `reflect` fails
with it. -/
theorem C1_counterexample :
    to_sqla complexColumn = Except.error "complex dtypes not supported" ∧
    reflect complexFrame "tbl" .none [("measurement", SqlType.Text)] false
      = Except.error "complex dtypes not supported" :=
  ⟨rfl, rfl⟩

/-- C1, amended: for every column with a `dtypes` override, a successful
`reflect` call carries the overridden type in that column's schema triple;
but the Type Inferencer is invoked for every column regardless of
overrides, so when inference fails on an overridden column the whole call
fails. -/
theorem C1_override_carried_but_inference_always_runs
    (df : DataFrame) (tn : String) (pk : PkArg) (dtypes : List (String × SqlType))
    (name : String) (T : SqlType) (hT : dtypes.lookup name = some T) :
    (∀ tbl : Table, reflect df tn pk dtypes false = .ok (.table tbl) →
        ∀ e ∈ tbl.columns, e.name = name → e.type = T) ∧
    (∀ (s : Series) (e : String), (name, s) ∈ df.cols → to_sqla s = .error e →
        reflect df tn pk dtypes false = .error "complex dtypes not supported") := by
  constructor
  · intro tbl h e he hname
    obtain ⟨l, hl, hr⟩ := reflect_ok_table df tn pk dtypes _ h
    injection hr with h2
    subst h2
    refine (build_schema_ok_entry _ _ _ _ hl e he).2 T ?_
    rw [hname]
    exact hT
  · intro s e hmem herr
    exact reflect_error_of_col df tn pk dtypes name s e hmem herr false

/-- C1, witness: the amended claim evaluated on the one-column complex
dataframe with a `Text` override for its column. -/
theorem C1_override_witness :
    ([("measurement", SqlType.Text)].lookup "measurement" = some SqlType.Text) ∧
    ((∀ tbl : Table,
        reflect complexFrame "tbl" .none [("measurement", SqlType.Text)] false
          = .ok (.table tbl) →
        ∀ e ∈ tbl.columns, e.name = "measurement" → e.type = SqlType.Text) ∧
     (∀ (s : Series) (e : String), ("measurement", s) ∈ complexFrame.cols →
        to_sqla s = .error e →
        reflect complexFrame "tbl" .none [("measurement", SqlType.Text)] false
          = .error "complex dtypes not supported")) :=
  ⟨rfl, C1_override_carried_but_inference_always_runs complexFrame "tbl" .none
    [("measurement", SqlType.Text)] "measurement" SqlType.Text rfl⟩

/-- C2: on a column whose non-null cells are complex numbers, `to_sqla`
fails with the complex-dtype error (the spec's `UnsupportedKindError`)
rather than falling back to `Text`, and any `reflect` call on a dataframe
containing such a column propagates the error so the whole call fails. -/
theorem C2_complex_unsupported (s : Series) (hne : s.nonNull ≠ [])
    (hcx : ∀ v ∈ s.nonNull, v = Scalar.complex)
    (df : DataFrame) (name tn : String) (pk : PkArg)
    (dtypes : List (String × SqlType)) (b : Bool) (hmem : (name, s) ∈ df.cols) :
    to_sqla s = .error "complex dtypes not supported" ∧
    reflect df tn pk dtypes b = .error "complex dtypes not supported" := by
  have hk : infer_dtype s.nonNull = "complex" :=
    infer_dtype_const _ _ hne (fun v hv => by rw [hcx v hv]; rfl)
  have h1 := to_sqla_kind_complex s hk
  exact ⟨h1, reflect_error_of_col df tn pk dtypes name s _ hmem h1 b⟩

/-- C2, witness: the complex column inside the one-column dataframe. -/
theorem C2_complex_unsupported_witness :
    (complexColumn.nonNull ≠ [] ∧ (∀ v ∈ complexColumn.nonNull, v = Scalar.complex) ∧
      ("measurement", complexColumn) ∈ complexFrame.cols) ∧
    (to_sqla complexColumn = Except.error "complex dtypes not supported" ∧
      reflect complexFrame "tbl2" .none [] false
        = Except.error "complex dtypes not supported") :=
  ⟨by decide,
   C2_complex_unsupported complexColumn (by decide) (by decide) complexFrame
     "measurement" "tbl2" .none [] false (by decide)⟩

/-- C3, counterexample: the claim says a naive datetime column yields
`Date` only when every value's time-of-day is exactly midnight, and
`DateTime` when any value is not midnight.  The code checks only
`column.dt.hour`: on a column whose single value has time 00:30:00 (not
midnight, hour zero) it returns `Date`, not `DateTime`. -/
theorem C3_counterexample :
    Scalar.isMidnight (Scalar.datetime 0 30 0 0) = false ∧
    to_sqla halfPastMidnight = Except.ok SqlType.Date ∧
    to_sqla halfPastMidnight ≠ Except.ok SqlType.DateTime := by
  refine ⟨rfl, rfl, fun h => ?_⟩
  exact SqlType.noConfusion (Except.ok.inj h)

/-- C3, amended: for a naive datetime column, `to_sqla` inspects only the
hour component of the non-null values: it returns `Date` when every
non-null value's hour is zero (regardless of minutes, seconds or
sub-seconds) and the naive `DateTime` when some value's hour is
nonzero. -/
theorem C3_hour_component_only (s : Series) (hne : s.nonNull ≠ [])
    (hdt : ∀ v ∈ s.nonNull, v.isDatetime = true) (htz : s.tz = false) :
    ((∀ v ∈ s.nonNull, v.dtHour = 0) → to_sqla s = .ok .Date) ∧
    ((∃ v ∈ s.nonNull, v.dtHour ≠ 0) → to_sqla s = .ok .DateTime) := by
  have hk : infer_dtype s.nonNull = "datetime" :=
    infer_dtype_const _ _ hne (fun v hv => kindLabel_of_isDatetime v (hdt v hv))
  have hds := to_sqla_kind_datetime s hk
  rw [htz] at hds
  simp only [Bool.false_eq_true, if_false] at hds
  constructor
  · intro hall
    rw [hds, if_pos]
    rw [List.all_eq_true]
    intro v hv
    rw [beq_iff_eq]
    exact hall v hv
  · rintro ⟨v, hv, hne0⟩
    rw [hds, if_neg]
    intro hall
    rw [List.all_eq_true] at hall
    exact hne0 (by simpa using hall v hv)

/-- C3, witness: the amended claim evaluated on the 00:30:00 column, whose
hour component is zero. -/
theorem C3_hour_witness :
    (halfPastMidnight.nonNull ≠ [] ∧
      (∀ v ∈ halfPastMidnight.nonNull, v.isDatetime = true) ∧
      halfPastMidnight.tz = false) ∧
    (((∀ v ∈ halfPastMidnight.nonNull, v.dtHour = 0) →
        to_sqla halfPastMidnight = .ok .Date) ∧
     ((∃ v ∈ halfPastMidnight.nonNull, v.dtHour ≠ 0) →
        to_sqla halfPastMidnight = .ok .DateTime)) :=
  ⟨by decide, C3_hour_component_only halfPastMidnight (by decide) (by decide) rfl⟩

/-- C4: on a datetime column that carries timezone information, `to_sqla`
returns the timezone-aware `TIMESTAMP(timezone=True)` type, before and
regardless of any midnight handling. -/
theorem C4_timezone_aware (s : Series) (hne : s.nonNull ≠ [])
    (hdt : ∀ v ∈ s.nonNull, v.isDatetime = true) (htz : s.tz = true) :
    to_sqla s = .ok (.TIMESTAMP true) := by
  have hk : infer_dtype s.nonNull = "datetime" :=
    infer_dtype_const _ _ hne (fun v hv => kindLabel_of_isDatetime v (hdt v hv))
  rw [to_sqla_kind_datetime s hk, htz]
  simp

/-- C4, witness: a timezone-aware column whose values are all exactly
midnight still maps to the timezone-aware timestamp type. -/
theorem C4_timezone_aware_witness :
    (datesColumnTz.nonNull ≠ [] ∧ (∀ v ∈ datesColumnTz.nonNull, v.isDatetime = true) ∧
      datesColumnTz.tz = true) ∧
    to_sqla datesColumnTz = Except.ok (SqlType.TIMESTAMP true) :=
  ⟨by decide, C4_timezone_aware datesColumnTz (by decide) (by decide) rfl⟩

/-- C5: on a column whose values are all null, the sequence is empty after
null filtering and `to_sqla` returns the arbitrary-length `Text` type. -/
theorem C5_all_null_text (s : Series) (h : ∀ v ∈ s.values, v = Scalar.null) :
    to_sqla s = .ok .Text := by
  have hnn : s.nonNull = [] := by
    rw [Series.nonNull, List.filter_eq_nil_iff]
    intro v hv
    rw [h v hv]
    simp [Scalar.notna]
  exact to_sqla_kind_empty s (by rw [hnn]; rfl)

/-- C5, witness: the two-cell all-null column maps to `Text`. -/
theorem C5_all_null_text_witness :
    (∀ v ∈ nullColumn.values, v = Scalar.null) ∧
    to_sqla nullColumn = Except.ok SqlType.Text :=
  ⟨by decide, C5_all_null_text nullColumn (by decide)⟩

/-- C6: on an integer-kind column, 32-bit storage maps to `Integer`,
64-bit storage maps to `BigInteger`, and the returned integer type is
never narrower than the storage width. -/
theorem C6_integer_widths (s : Series) (hne : s.nonNull ≠ [])
    (hint : ∀ v ∈ s.nonNull, v = Scalar.int) :
    (s.dtype = .int32 → to_sqla s = .ok .Integer) ∧
    (s.dtype = .int64 → to_sqla s = .ok .BigInteger) ∧
    (∀ t, to_sqla s = .ok t → s.dtype.bits ≤ t.intBits) := by
  have hk : infer_dtype s.nonNull = "integer" :=
    infer_dtype_const _ _ hne (fun v hv => by rw [hint v hv]; rfl)
  have hds := to_sqla_kind_integer s hk
  refine ⟨?_, ?_, ?_⟩
  · intro h32
    rw [hds, if_pos h32]
  · intro h64
    rw [hds, if_neg]
    rw [h64]
    intro hc
    exact DType.noConfusion hc
  · intro t ht
    rw [hds] at ht
    by_cases h32 : s.dtype = .int32
    · rw [if_pos h32] at ht
      have := Except.ok.inj ht
      subst this
      rw [h32]
      decide
    · rw [if_neg h32] at ht
      have := Except.ok.inj ht
      subst this
      cases hd : s.dtype <;> simp [DType.bits, SqlType.intBits]

/-- C6, witness: the 64-bit integer column maps to `BigInteger`. -/
theorem C6_integer_widths_witness :
    (intsColumn.nonNull ≠ [] ∧ (∀ v ∈ intsColumn.nonNull, v = Scalar.int)) ∧
    ((intsColumn.dtype = .int32 → to_sqla intsColumn = .ok .Integer) ∧
     (intsColumn.dtype = .int64 → to_sqla intsColumn = .ok .BigInteger) ∧
     (∀ t, to_sqla intsColumn = .ok t → intsColumn.dtype.bits ≤ t.intBits)) :=
  ⟨by decide, C6_integer_widths intsColumn (by decide) (by decide)⟩

/-- C7: on a floating-kind column, 32-bit storage maps to the
single-precision `Float(precision=23)` and every other storage width
(64-bit included) maps to the double-precision `Float(precision=53)`. -/
theorem C7_float_precision (s : Series) (hne : s.nonNull ≠ [])
    (hfl : ∀ v ∈ s.nonNull, v = Scalar.float) :
    (s.dtype = .float32 → to_sqla s = .ok (.Float 23)) ∧
    (s.dtype ≠ .float32 → to_sqla s = .ok (.Float 53)) := by
  have hk : infer_dtype s.nonNull = "floating" :=
    infer_dtype_const _ _ hne (fun v hv => by rw [hfl v hv]; rfl)
  have hds := to_sqla_kind_floating s hk
  refine ⟨?_, ?_⟩
  · intro h32
    rw [hds, if_pos h32]
  · intro h32
    rw [hds, if_neg h32]

/-- C7, witness: the 32-bit float column maps to `Float(precision=23)`. -/
theorem C7_float_precision_witness :
    (floatsColumn.nonNull ≠ [] ∧ (∀ v ∈ floatsColumn.nonNull, v = Scalar.float)) ∧
    ((floatsColumn.dtype = .float32 → to_sqla floatsColumn = .ok (.Float 23)) ∧
     (floatsColumn.dtype ≠ .float32 → to_sqla floatsColumn = .ok (.Float 53))) :=
  ⟨by decide, C7_float_precision floatsColumn (by decide) (by decide)⟩

/-- C8: a successful `reflect` call emits one triple per dataset column,
in input order, and a column's primary-key flag is set exactly when its
name, compared case-insensitively, equals one of the supplied primary-key
names. -/
theorem C8_pk_case_insensitive (df : DataFrame) (tn : String) (pk : PkArg)
    (dtypes : List (String × SqlType)) (tbl : Table)
    (h : reflect df tn pk dtypes false = .ok (.table tbl)) :
    tbl.columns.map SchemaEntry.name = df.cols.map Prod.fst ∧
    ∀ e ∈ tbl.columns,
      (e.is_pk = true ↔ ∃ p ∈ pk.normalize, pyLower p = pyLower e.name) := by
  obtain ⟨l, hl, hr⟩ := reflect_ok_table df tn pk dtypes _ h
  injection hr with h2
  subst h2
  exact ⟨build_schema_ok_names _ _ _ _ hl,
    fun e he => (build_schema_ok_entry _ _ _ _ hl e he).1⟩

/-- C8, witness: supplying `pk=['Dates_Not_Null']` marks the column
literally named `dates_not_null` as primary key. -/
theorem C8_pk_case_insensitive_witness :
    (reflect sampleFrame "t" (.list ["Dates_Not_Null"]) [] false =
      Except.ok (.table ⟨"t",
        [⟨"dates_not_null", .Date, true⟩, ⟨"amount", .BigInteger, false⟩]⟩)) ∧
    ((Table.mk "t" [⟨"dates_not_null", .Date, true⟩,
        ⟨"amount", .BigInteger, false⟩]).columns.map SchemaEntry.name
        = sampleFrame.cols.map Prod.fst ∧
     ∀ e ∈ (Table.mk "t" [⟨"dates_not_null", SqlType.Date, true⟩,
        ⟨"amount", SqlType.BigInteger, false⟩]).columns,
      (e.is_pk = true ↔
        ∃ p ∈ (PkArg.list ["Dates_Not_Null"]).normalize,
          pyLower p = pyLower e.name)) :=
  ⟨by rfl, C8_pk_case_insensitive sampleFrame "t" (.list ["Dates_Not_Null"]) []
      ⟨"t", [⟨"dates_not_null", .Date, true⟩, ⟨"amount", .BigInteger, false⟩]⟩ (by rfl)⟩

/-- C9: schema synthesis is deterministic: `reflect` on structurally equal
dataframes with the same table name, primary-key argument, type overrides
and rendering flag yields structurally identical results. -/
theorem C9_deterministic (df1 df2 : DataFrame) (tn : String) (pk : PkArg)
    (dtypes : List (String × SqlType)) (b : Bool) (h : df1 = df2) :
    reflect df1 tn pk dtypes b = reflect df2 tn pk dtypes b := by rw [h]

/-- C9, witness: two identical calls on the sample dataframe agree. -/
theorem C9_deterministic_witness :
    sampleFrame = sampleFrame ∧
    reflect sampleFrame "t" (.list ["amount"]) [] false =
      reflect sampleFrame "t" (.list ["amount"]) [] false :=
  ⟨rfl, C9_deterministic sampleFrame sampleFrame "t" (.list ["amount"]) [] false rfl⟩

/-- C10: passing a bare string as the `pk` argument is exactly the same as
passing the one-element list containing it: `reflect` normalises
`isinstance(pk, str)` to `[pk]` before any other processing. -/
theorem C10_pk_string_singleton (df : DataFrame) (tn ps : String)
    (dtypes : List (String × SqlType)) (b : Bool) :
    reflect df tn (.str ps) dtypes b = reflect df tn (.list [ps]) dtypes b := rfl

end Sn
